import Mathlib

/-!
Shallow embedding of the `solana-invoke` crate:
  - `src/invoke/src/instruction_stabilizer.rs` (zero-copy stabilization of an
    `Instruction` into the stable ABI layout), and
  - `src/invoke/src/lib.rs` (the checked `invoke_signed` entry point with its
    account-borrow probe loop, and the unchecked `invoke_signed_unchecked`
    boundary dispatch).

Machine pointers are modelled as `Nat` addresses (0 is the null address).
A Rust `Vec<T>` is modelled by its backing-buffer address, its element list
and its capacity; `RefCell` borrow flags follow Rust's `isize` convention
(0 unused, positive shared count, negative exclusive).
-/

namespace SolanaInvoke

/-- A 32-byte public key (`Pubkey`), modelled as its byte list. -/
structure Pubkey where
  bytes : List Nat
deriving DecidableEq

/-- The `solana_program::instruction::AccountMeta` struct. -/
structure AccountMeta where
  pubkey : Pubkey
  is_signer : Bool
  is_writable : Bool
deriving DecidableEq

/-- Model of Rust's `Vec<T>`: backing buffer address (`as_ptr`), the elements,
and the capacity. -/
structure Vec (α : Type) where
  ptr : Nat
  elems : List α
  cap : Nat
deriving DecidableEq

/-- Rust `Vec::len`. -/
def Vec.len {α : Type} (v : Vec α) : Nat := v.elems.length

/-- Rust `Vec::as_ptr`. -/
def Vec.as_ptr {α : Type} (v : Vec α) : Nat := v.ptr

/-- Rust `Vec::capacity`. -/
def Vec.capacity {α : Type} (v : Vec α) : Nat := v.cap

/-- Rust `Vec`'s pointer invariant: the buffer pointer is never null, even for
a vector that has never allocated (capacity zero), where it is a dangling
non-null sentinel. -/
def Vec.WF {α : Type} (v : Vec α) : Prop := v.ptr ≠ 0

/-- The `solana_program::instruction::Instruction` type: target program id, ordered
account metas, and opaque data bytes. -/
structure Instruction where
  program_id : Pubkey
  accounts : Vec AccountMeta
  data : Vec Nat
deriving DecidableEq

/-- The `StableVec<T>` struct from `instruction_stabilizer.rs`, a `repr(C)` struct whose
fields are declared in the order `ptr`, `cap`, `len` (the element type is only
a phantom there, so it is dropped here). -/
structure StableVec where
  ptr : Nat
  cap : Nat
  len : Nat
deriving DecidableEq

/-- The machine words of a `StableVec` in declaration order: the struct is
`repr(C)`, so its in-memory word order is exactly the declared field order
`ptr`, `cap`, `len`. -/
def StableVec.words (v : StableVec) : List Nat := [v.ptr, v.cap, v.len]

/-- The `StableInstruction` type of `solana_program::stable_layout`, the stable call layout handed by address across the host boundary. -/
structure StableInstruction where
  accounts : StableVec
  data : StableVec
  program_id : Pubkey
deriving DecidableEq

/-- A field-sized region of the stable call layout's in-memory image. -/
inductive LayoutRegion where
  | identity (p : Pubkey)
  | view (ptr cap len : Nat)
deriving DecidableEq

/-- Modelled from the spec: the in-memory field order of `StableInstruction`
is fixed by its declaration in the external `solana_program` crate, which is
not part of this repository; per the spec's layout table the 32-byte target
identity comes first, then the accounts view, then the data view, each view
being its three machine words in `StableVec` order. -/
def stableLayoutRegions (si : StableInstruction) : List LayoutRegion :=
  [ LayoutRegion.identity si.program_id,
    LayoutRegion.view si.accounts.ptr si.accounts.cap si.accounts.len,
    LayoutRegion.view si.data.ptr si.data.cap si.data.len ]

/-- The `InstructionStabilizer` wrapper: wraps the stabilized instruction (the
`ManuallyDrop` and the phantom lifetime have no observable content here). -/
structure InstructionStabilizer where
  stabilized_instruction : StableInstruction
deriving DecidableEq

/-- Rust `NonNull::new`: `some` exactly when the address is non-null. -/
def nonNullNew (p : Nat) : Option Nat := if p = 0 then none else some p

/-- The `stabilize_instruction` function from `instruction_stabilizer.rs`: extract
`{ptr, len, cap}` of the data vector, then of the accounts vector, and build
the `StableInstruction`, copying the program id by value. The `.expect` on a
null pointer aborts, modelled as `none`. The instruction is only read; it is
returned alongside the stabilizer to make that explicit. -/
def stabilize_instruction (ix : Instruction) : Option (InstructionStabilizer × Instruction) :=
  match nonNullNew ix.data.as_ptr with
  | none => none
  | some dptr =>
    let data : StableVec := { ptr := dptr, cap := ix.data.capacity, len := ix.data.len }
    match nonNullNew ix.accounts.as_ptr with
    | none => none
    | some aptr =>
      let accounts : StableVec :=
        { ptr := aptr, cap := ix.accounts.capacity, len := ix.accounts.len }
      some ({ stabilized_instruction :=
                { accounts := accounts, data := data, program_id := ix.program_id } },
            ix)

/-- The public wrapper `InstructionStabilizer::stabilize`. -/
def InstructionStabilizer.stabilize (ix : Instruction) :
    Option (InstructionStabilizer × Instruction) :=
  stabilize_instruction ix

/-- A `RefCell` borrow flag, Rust convention: 0 unused, `n > 0` means `n`
shared borrows, negative means an exclusive borrow. -/
abbrev BorrowFlag := Int

/-- Rust `RefCell::try_borrow_mut`: succeeds only when the flag is unused. -/
def tryBorrowMut (b : BorrowFlag) : Option BorrowFlag :=
  if b = 0 then some (-1) else none

/-- Rust `RefCell::try_borrow`: succeeds unless an exclusive borrow is active. -/
def tryBorrow (b : BorrowFlag) : Option BorrowFlag :=
  if 0 ≤ b then some (b + 1) else none

/-- Dropping the `RefMut` guard resets the flag to unused. -/
def releaseMut (_ : BorrowFlag) : BorrowFlag := 0

/-- Dropping the `Ref` guard decrements the shared count. -/
def releaseShared (b : BorrowFlag) : BorrowFlag := b - 1

/-- The `AccountInfo` handle, reduced to what the checked path observes: the key and the
borrow flags of the lamports cell and the data cell. -/
structure AccountInfo where
  key : Pubkey
  lamports_borrow : BorrowFlag
  data_borrow : BorrowFlag
deriving DecidableEq

/-- The typed errors this crate's paths can return: the borrow-probe failure
(`ProgramError::AccountBorrowFailed`, what every `try_borrow*` method returns
on conflict) and a boundary failure carrying the host's nonzero result code. -/
inductive ProgramError where
  | AccountBorrowFailed
  | BoundaryFailure (code : Nat)
deriving DecidableEq

/-- Modelled from the spec: `impl From<u64> for ProgramError` lives in the
external `solana_program` crate, not in this repository; the spec states the
nonzero code is preserved and surfaced to the caller unchanged. -/
def ProgramError.fromCode (c : Nat) : ProgramError := ProgramError.BoundaryFailure c

/-- The body of the `if account_meta.is_writable` branch pair in
`invoke_signed` for one matched account: acquire the implied access to the
lamports cell and then the data cell, each `let _ = ...?` guard being dropped
at the end of its own statement. Returns the error (if any) together with the
account's final borrow state. -/
def probeAccount (writable : Bool) (a : AccountInfo) : Option ProgramError × AccountInfo :=
  if writable then
    match tryBorrowMut a.lamports_borrow with
    | none => (some ProgramError.AccountBorrowFailed, a)
    | some lb =>
      let a1 : AccountInfo := { a with lamports_borrow := releaseMut lb }
      match tryBorrowMut a1.data_borrow with
      | none => (some ProgramError.AccountBorrowFailed, a1)
      | some db => (none, { a1 with data_borrow := releaseMut db })
  else
    match tryBorrow a.lamports_borrow with
    | none => (some ProgramError.AccountBorrowFailed, a)
    | some lb =>
      let a1 : AccountInfo := { a with lamports_borrow := releaseShared lb }
      match tryBorrow a1.data_borrow with
      | none => (some ProgramError.AccountBorrowFailed, a1)
      | some db => (none, { a1 with data_borrow := releaseShared db })

/-- The inner `for account_info in account_infos` loop of `invoke_signed` for
one `AccountMeta`: scan in order, probe the first handle whose key matches,
then `break`. Returns the error (if any) and the handle list's final state. -/
def checkMeta (meta : AccountMeta) : List AccountInfo → Option ProgramError × List AccountInfo
  | [] => (none, [])
  | a :: rest =>
    if meta.pubkey = a.key then
      match probeAccount meta.is_writable a with
      | (r, a1) => (r, a1 :: rest)
    else
      match checkMeta meta rest with
      | (r, rest1) => (r, a :: rest1)

/-- The outer `for account_meta in instruction.accounts` loop of
`invoke_signed`: check each meta in order, propagating the first error. -/
def checkAccounts : List AccountMeta → List AccountInfo → Option ProgramError × List AccountInfo
  | [], infos => (none, infos)
  | m :: ms, infos =>
    match checkMeta m infos with
    | (some e, infos1) => (some e, infos1)
    | (none, infos1) => checkAccounts ms infos1

/-- One signer seed group, `&[&[u8]]`. -/
abbrev SignerSeeds := List (List Nat)

/-- The host boundary `sol_invoke_signed_rust`: the external runtime, taken as
a parameter. It receives the stabilized instruction (the content behind
`instruction_addr`), the account-handle list with its count, and the seed
group list with its count, and returns an unsigned result code. -/
abbrev Host := StableInstruction → List AccountInfo → Nat → List SignerSeeds → Nat → Nat

/-- The constant `solana_program::entrypoint::SUCCESS`. -/
def SUCCESS : Nat := 0

/-- The function `invoke_signed_unchecked` (the `target_os = "solana"` path): stabilize the
instruction, issue the single boundary call, and map the numeric code: 0 to
`Ok(())`, anything else to `Err(result.into())`. The abort of the stabilizer's
`.expect` is modelled as `none`. -/
def invoke_signed_unchecked (host : Host) (ix : Instruction) (infos : List AccountInfo)
    (seeds : List SignerSeeds) : Option (Except ProgramError Unit) :=
  match stabilize_instruction ix with
  | none => none
  | some (stab, _) =>
    let result := host stab.stabilized_instruction infos infos.length seeds seeds.length
    some (if result = SUCCESS then Except.ok () else Except.error (ProgramError.fromCode result))

/-- The function `invoke_signed`: run the borrow-consistency check over the account
handles, returning its error without dispatching if it fails, and otherwise
dispatch through `invoke_signed_unchecked`. The final borrow states of the
handles are returned alongside the result. -/
def invoke_signed (host : Host) (ix : Instruction) (infos : List AccountInfo)
    (seeds : List SignerSeeds) : Option (Except ProgramError Unit) × List AccountInfo :=
  match checkAccounts ix.accounts.elems infos with
  | (some e, infos1) => (some (Except.error e), infos1)
  | (none, infos1) => (invoke_signed_unchecked host ix infos1 seeds, infos1)

/-- The function `invoke`: `invoke_signed` with no signer seeds. -/
def invoke (host : Host) (ix : Instruction) (infos : List AccountInfo) :
    Option (Except ProgramError Unit) × List AccountInfo :=
  invoke_signed host ix infos []

/-- The function `invoke_unchecked`: `invoke_signed_unchecked` with no signer seeds. -/
def invoke_unchecked (host : Host) (ix : Instruction) (infos : List AccountInfo) :
    Option (Except ProgramError Unit) :=
  invoke_signed_unchecked host ix infos []

/-- Whether probing the handle with the access implied by `writable` would
succeed: exclusive access to both cells needs both flags unused; shared access
needs both flags non-exclusive. -/
def canProbe (writable : Bool) (a : AccountInfo) : Bool :=
  if writable then a.lamports_borrow == 0 && a.data_borrow == 0
  else decide (0 ≤ a.lamports_borrow) && decide (0 ≤ a.data_borrow)

/-- Whether the first handle matching this meta's key (the one the scan
probes) refuses the implied access. -/
def hasConflictMeta (meta : AccountMeta) (infos : List AccountInfo) : Bool :=
  match infos.find? (fun a => decide (meta.pubkey = a.key)) with
  | some a => ! canProbe meta.is_writable a
  | none => false

/-- Whether some meta of the instruction hits a borrow conflict on its first
matching handle. -/
def hasConflict (ix : Instruction) (infos : List AccountInfo) : Bool :=
  ix.accounts.elems.any (fun m => hasConflictMeta m infos)

/-! Helper lemmas. -/

/-- Successful stabilization, in closed form. -/
lemma stabilize_eq (ix : Instruction) (hd : ix.data.ptr ≠ 0) (ha : ix.accounts.ptr ≠ 0) :
    stabilize_instruction ix =
      some ({ stabilized_instruction :=
                { accounts := ⟨ix.accounts.ptr, ix.accounts.cap, ix.accounts.elems.length⟩,
                  data := ⟨ix.data.ptr, ix.data.cap, ix.data.elems.length⟩,
                  program_id := ix.program_id } },
            ix) := by
  simp [stabilize_instruction, nonNullNew, Vec.as_ptr, Vec.capacity, Vec.len, hd, ha]

/-- Inversion of a successful stabilization. -/
lemma stabilize_some_inv {ix : Instruction} {stab : InstructionStabilizer} {ix' : Instruction}
    (h : stabilize_instruction ix = some (stab, ix')) :
    ix' = ix ∧ ix.data.ptr ≠ 0 ∧ ix.accounts.ptr ≠ 0 ∧
      stab.stabilized_instruction =
        { accounts := ⟨ix.accounts.ptr, ix.accounts.cap, ix.accounts.elems.length⟩,
          data := ⟨ix.data.ptr, ix.data.cap, ix.data.elems.length⟩,
          program_id := ix.program_id } := by
  by_cases hd : ix.data.ptr = 0
  · simp [stabilize_instruction, nonNullNew, Vec.as_ptr, hd] at h
  · by_cases ha : ix.accounts.ptr = 0
    · simp [stabilize_instruction, nonNullNew, Vec.as_ptr, hd, ha] at h
    · rw [stabilize_eq ix hd ha] at h
      obtain ⟨hstab, hix⟩ := Prod.mk.injEq .. ▸ Option.some.inj h
      exact ⟨hix.symm, hd, ha, by rw [← hstab]⟩

/-- The per-account probe acquires and immediately releases each cell, so it
returns the account unchanged, failing exactly when the implied access is
refused. -/
lemma probeAccount_eq (w : Bool) (a : AccountInfo) :
    probeAccount w a =
      ((if canProbe w a then none else some ProgramError.AccountBorrowFailed), a) := by
  obtain ⟨k, lb, db⟩ := a
  cases w
  · by_cases hl : (0 : Int) ≤ lb <;> by_cases hd : (0 : Int) ≤ db <;>
      simp [probeAccount, canProbe, tryBorrow, releaseShared, hl, hd]
  · by_cases hl : lb = 0 <;> by_cases hd : db = 0 <;>
      simp [probeAccount, canProbe, tryBorrowMut, releaseMut, hl, hd]

/-- The scan for one meta leaves the handle list unchanged and fails exactly
when the first matching handle refuses the implied access. -/
lemma checkMeta_eq (meta : AccountMeta) (infos : List AccountInfo) :
    checkMeta meta infos =
      ((if hasConflictMeta meta infos then some ProgramError.AccountBorrowFailed else none),
       infos) := by
  induction infos with
  | nil => simp [checkMeta, hasConflictMeta]
  | cons a rest ih =>
    by_cases h : meta.pubkey = a.key
    · by_cases hc : canProbe meta.is_writable a <;>
        simp [checkMeta, hasConflictMeta, h, hc, probeAccount_eq]
    · simp [checkMeta, hasConflictMeta, h, ih]

/-- The whole checker pass leaves the handle list unchanged and fails exactly
when some meta hits a conflict on its first matching handle. -/
lemma checkAccounts_eq (metas : List AccountMeta) (infos : List AccountInfo) :
    checkAccounts metas infos =
      ((if metas.any (fun m => hasConflictMeta m infos)
          then some ProgramError.AccountBorrowFailed else none),
       infos) := by
  induction metas with
  | nil => simp [checkAccounts]
  | cons m ms ih =>
    by_cases h : hasConflictMeta m infos
    · simp [checkAccounts, checkMeta_eq, h]
    · simp [checkAccounts, checkMeta_eq, h, ih]

/-! Concrete data for witnesses and counterexamples. -/

/-- A sample instruction: one writable meta, two data bytes, spare capacity. -/
def sampleIx : Instruction :=
  { program_id := ⟨[1]⟩,
    accounts := { ptr := 2,
                  elems := [{ pubkey := ⟨[5]⟩, is_signer := true, is_writable := true }],
                  cap := 4 },
    data := { ptr := 3, elems := [7, 8], cap := 6 } }

/-- The stabilizer produced from `sampleIx`. -/
def sampleStab : InstructionStabilizer :=
  { stabilized_instruction :=
      { accounts := ⟨2, 4, 1⟩, data := ⟨3, 6, 2⟩, program_id := ⟨[1]⟩ } }

/-- A handle list whose only handle holds an exclusive lamports borrow. -/
def conflictInfos : List AccountInfo := [⟨⟨[5]⟩, -1, 0⟩]

/-- A handle list with all borrow flags unused. -/
def okInfos : List AccountInfo := [⟨⟨[5]⟩, 0, 0⟩]

/-- A host that always reports success. -/
def hostZero : Host := fun _ _ _ _ _ => 0

/-- A host that always reports failure code 7. -/
def hostSeven : Host := fun _ _ _ _ _ => 7

/-- An instruction whose data view has distinct length (3) and capacity (7). -/
def c6Ix : Instruction :=
  { program_id := ⟨[2]⟩,
    accounts := { ptr := 4, elems := [], cap := 0 },
    data := { ptr := 5, elems := [9, 9, 9], cap := 7 } }

/-- The stabilizer produced from `c6Ix`. -/
def c6Stab : InstructionStabilizer :=
  { stabilized_instruction :=
      { accounts := ⟨4, 0, 0⟩, data := ⟨5, 7, 3⟩, program_id := ⟨[2]⟩ } }

/-- An instruction whose vectors have never allocated: zero capacity, with the
dangling non-null sentinel address 1. -/
def zeroIx : Instruction :=
  { program_id := ⟨[0]⟩,
    accounts := { ptr := 1, elems := [], cap := 0 },
    data := { ptr := 1, elems := [], cap := 0 } }

/-- A meta requesting writable access to key `[5]`. -/
def metaW : AccountMeta := { pubkey := ⟨[5]⟩, is_signer := false, is_writable := true }

/-- Handles before the first match: a single handle with a different key. -/
def preW : List AccountInfo := [⟨⟨[4]⟩, 0, 0⟩]

/-- The first handle matching `metaW`, with all flags unused. -/
def mW : AccountInfo := ⟨⟨[5]⟩, 0, 0⟩

/-- Handles after the first match: a same-key handle whose probe would fail. -/
def postW : List AccountInfo := [⟨⟨[5]⟩, -1, -1⟩]

/-! Claim theorems. -/

/-- Claim C1: for every instruction, the stable call layout built by
`stabilize_instruction` places the 32-byte program identity first, the
accounts buffer view second, and the data buffer view third. -/
theorem claim1_stable_layout_field_order (ix : Instruction) (stab : InstructionStabilizer)
    (ix' : Instruction) (h : stabilize_instruction ix = some (stab, ix')) :
    stableLayoutRegions stab.stabilized_instruction =
      [ LayoutRegion.identity ix.program_id,
        LayoutRegion.view ix.accounts.ptr ix.accounts.cap ix.accounts.elems.length,
        LayoutRegion.view ix.data.ptr ix.data.cap ix.data.elems.length ] := by
  obtain ⟨-, -, -, hsi⟩ := stabilize_some_inv h
  simp [stableLayoutRegions, hsi]

/-- Witness for C1 at `sampleIx`. -/
theorem claim1_witness :
    stabilize_instruction sampleIx = some (sampleStab, sampleIx) ∧
    stableLayoutRegions sampleStab.stabilized_instruction =
      [ LayoutRegion.identity ⟨[1]⟩, LayoutRegion.view 2 4 1, LayoutRegion.view 3 6 2 ] :=
  ⟨by decide,
   claim1_stable_layout_field_order sampleIx sampleStab sampleIx (by decide)⟩

/-- Claim C2: the stabilized accounts view's length equals the number of
account entries, the data view's length equals the number of data bytes, and
both views' pointers equal the original buffers' addresses (no copy). -/
theorem claim2_view_lengths_and_pointers (ix : Instruction) (stab : InstructionStabilizer)
    (ix' : Instruction) (h : stabilize_instruction ix = some (stab, ix')) :
    stab.stabilized_instruction.accounts.len = ix.accounts.len ∧
    stab.stabilized_instruction.data.len = ix.data.len ∧
    stab.stabilized_instruction.accounts.ptr = ix.accounts.as_ptr ∧
    stab.stabilized_instruction.data.ptr = ix.data.as_ptr := by
  obtain ⟨-, -, -, hsi⟩ := stabilize_some_inv h
  simp [hsi, Vec.len, Vec.as_ptr]

/-- Witness for C2 at `sampleIx` (1 account entry, 2 data bytes). -/
theorem claim2_witness :
    stabilize_instruction sampleIx = some (sampleStab, sampleIx) ∧
    (sampleStab.stabilized_instruction.accounts.len = sampleIx.accounts.len ∧
     sampleStab.stabilized_instruction.data.len = sampleIx.data.len ∧
     sampleStab.stabilized_instruction.accounts.ptr = sampleIx.accounts.as_ptr ∧
     sampleStab.stabilized_instruction.data.ptr = sampleIx.data.as_ptr) :=
  ⟨by decide,
   claim2_view_lengths_and_pointers sampleIx sampleStab sampleIx (by decide)⟩

/-- Claim C3: if some meta's first matching handle refuses the access implied
by `is_writable`, then `invoke_signed` returns the typed borrow error with all
borrow states intact, for every host — so the boundary dispatch, which is the
only place the host is consulted, is never invoked. -/
theorem claim3_conflict_fails_fast (host : Host) (ix : Instruction) (infos : List AccountInfo)
    (seeds : List SignerSeeds) (h : hasConflict ix infos = true) :
    invoke_signed host ix infos seeds =
      (some (Except.error ProgramError.AccountBorrowFailed), infos) := by
  have h2 : ix.accounts.elems.any (fun m => hasConflictMeta m infos) = true := h
  unfold invoke_signed
  rw [checkAccounts_eq]
  simp [h2]

/-- Witness for C3: a writable meta against a handle whose lamports cell is
exclusively borrowed, under the always-successful host. -/
theorem claim3_witness :
    hasConflict sampleIx conflictInfos = true ∧
    invoke_signed hostZero sampleIx conflictInfos [] =
      (some (Except.error ProgramError.AccountBorrowFailed), conflictInfos) :=
  ⟨by decide,
   claim3_conflict_fails_fast hostZero sampleIx conflictInfos [] (by decide)⟩

/-- Claim C4: with no borrow conflict among the handles, the checked path
returns exactly what the unchecked path returns (and restores the handles). -/
theorem claim4_checked_unchecked_agree (host : Host) (ix : Instruction)
    (infos : List AccountInfo) (seeds : List SignerSeeds)
    (h : hasConflict ix infos = false) :
    invoke_signed host ix infos seeds = (invoke_signed_unchecked host ix infos seeds, infos) := by
  have h2 : ix.accounts.elems.any (fun m => hasConflictMeta m infos) = false := h
  unfold invoke_signed
  rw [checkAccounts_eq]
  simp [h2]

/-- Witness for C4 at `sampleIx` with conflict-free handles. -/
theorem claim4_witness :
    hasConflict sampleIx okInfos = false ∧
    invoke_signed hostZero sampleIx okInfos [] =
      (invoke_signed_unchecked hostZero sampleIx okInfos [], okInfos) :=
  ⟨by decide,
   claim4_checked_unchecked_agree hostZero sampleIx okInfos [] (by decide)⟩

/-- Claim C5: `invoke_signed_unchecked` maps the host's result code 0 to
success and any nonzero code to the typed failure carrying that exact code. -/
theorem claim5_result_code_mapping (host : Host) (ix : Instruction) (infos : List AccountInfo)
    (seeds : List SignerSeeds) (stab : InstructionStabilizer) (ix' : Instruction)
    (h : stabilize_instruction ix = some (stab, ix')) :
    invoke_signed_unchecked host ix infos seeds =
      some (if host stab.stabilized_instruction infos infos.length seeds seeds.length = SUCCESS
            then Except.ok ()
            else Except.error (ProgramError.BoundaryFailure
                   (host stab.stabilized_instruction infos infos.length seeds seeds.length))) := by
  unfold invoke_signed_unchecked
  rw [h]
  rfl

/-- Witness for C5: the code-7 host yields the typed failure carrying 7. -/
theorem claim5_witness :
    stabilize_instruction sampleIx = some (sampleStab, sampleIx) ∧
    invoke_signed_unchecked hostSeven sampleIx [] [] =
      some (Except.error (ProgramError.BoundaryFailure 7)) :=
  ⟨by decide, by
    have h := claim5_result_code_mapping hostSeven sampleIx [] [] sampleStab sampleIx (by decide)
    simpa [hostSeven, SUCCESS] using h⟩

/-- Counterexample for C6: at `c6Ix` the stabilized data view has pointer 5,
length 3, capacity 7; its in-memory words are `[5, 7, 3]` (pointer, capacity,
length), not `[5, 3, 7]` as the claimed pointer-length-capacity order says. -/
theorem claim6_counterexample :
    ((stabilize_instruction c6Ix).map fun p => p.1.stabilized_instruction.data.words) =
        some [5, 7, 3] ∧
    ¬ ((stabilize_instruction c6Ix).map fun p => p.1.stabilized_instruction.data.words) =
        some [5, 3, 7] := by decide

/-- Claim C6 as amended: each buffer view of a stabilized instruction records
the pointer first, then the capacity, then the length. -/
theorem claim6_view_word_order (ix : Instruction) (stab : InstructionStabilizer)
    (ix' : Instruction) (h : stabilize_instruction ix = some (stab, ix')) :
    stab.stabilized_instruction.accounts.words =
      [ix.accounts.ptr, ix.accounts.cap, ix.accounts.elems.length] ∧
    stab.stabilized_instruction.data.words =
      [ix.data.ptr, ix.data.cap, ix.data.elems.length] := by
  obtain ⟨-, -, -, hsi⟩ := stabilize_some_inv h
  simp [StableVec.words, hsi]

/-- Witness for the amended C6 at `c6Ix`. -/
theorem claim6_witness :
    stabilize_instruction c6Ix = some (c6Stab, c6Ix) ∧
    (c6Stab.stabilized_instruction.accounts.words = [4, 0, 0] ∧
     c6Stab.stabilized_instruction.data.words = [5, 7, 3]) :=
  ⟨by decide, claim6_view_word_order c6Ix c6Stab c6Ix (by decide)⟩

/-- Claim C7: under Rust `Vec`'s non-null-pointer invariant (which holds even
for never-allocated, zero-capacity buffers), the stabilizer's non-null checks
never take their failure branch: stabilization always succeeds. -/
theorem claim7_zero_capacity_stabilizes (ix : Instruction) (hd : ix.data.WF)
    (ha : ix.accounts.WF) : (stabilize_instruction ix).isSome := by
  rw [stabilize_eq ix hd ha]
  rfl

/-- Witness for C7 at `zeroIx`, whose buffers have capacity zero and the
sentinel address 1. -/
theorem claim7_witness :
    zeroIx.data.WF ∧ zeroIx.accounts.WF ∧ (stabilize_instruction zeroIx).isSome :=
  ⟨by simp [Vec.WF, zeroIx], by simp [Vec.WF, zeroIx],
   claim7_zero_capacity_stabilizes zeroIx (by simp [Vec.WF, zeroIx])
     (by simp [Vec.WF, zeroIx])⟩

/-- Claim C8: stabilization leaves the instruction unchanged and the same
value can be stabilized again with the same outcome. -/
theorem claim8_stabilize_preserves_instruction (ix : Instruction)
    (stab : InstructionStabilizer) (ix' : Instruction)
    (h : stabilize_instruction ix = some (stab, ix')) :
    ix' = ix ∧ stabilize_instruction ix' = stabilize_instruction ix := by
  obtain ⟨hix, -, -, -⟩ := stabilize_some_inv h
  exact ⟨hix, by rw [hix]⟩

/-- Witness for C8 at `sampleIx`. -/
theorem claim8_witness :
    stabilize_instruction sampleIx = some (sampleStab, sampleIx) ∧
    (sampleIx = sampleIx ∧
     stabilize_instruction sampleIx = stabilize_instruction sampleIx) :=
  ⟨by decide,
   claim8_stabilize_preserves_instruction sampleIx sampleStab sampleIx (by decide)⟩

/-- Claim C9: the scan for one meta probes only the first matching handle:
when `pre` holds no match and `m` matches, the result is exactly the probe of
`m`, and the handles after `m` — matching or not — are passed through
untouched and never probed. -/
theorem claim9_first_match_only (meta : AccountMeta) (pre : List AccountInfo)
    (m : AccountInfo) (post : List AccountInfo)
    (hpre : ∀ a ∈ pre, meta.pubkey ≠ a.key) (hm : meta.pubkey = m.key) :
    checkMeta meta (pre ++ m :: post) =
      ((probeAccount meta.is_writable m).1,
       pre ++ (probeAccount meta.is_writable m).2 :: post) := by
  induction pre with
  | nil =>
    rcases hp : probeAccount meta.is_writable m with ⟨r, a1⟩
    simp [checkMeta, hm, hp]
  | cons a rest ih =>
    have hne : meta.pubkey ≠ a.key := hpre a (by simp)
    have ih2 := ih (fun x hx => hpre x (by simp [hx]))
    simp [checkMeta, hne, ih2]

/-- Witness for C9: the later same-key handle in `postW` holds exclusive
borrows, yet the scan succeeds, because only the first match `mW` is probed. -/
theorem claim9_witness :
    (∀ a ∈ preW, metaW.pubkey ≠ a.key) ∧ metaW.pubkey = mW.key ∧
    checkMeta metaW (preW ++ mW :: postW) =
      ((probeAccount metaW.is_writable mW).1,
       preW ++ (probeAccount metaW.is_writable mW).2 :: postW) :=
  ⟨by decide, by decide,
   claim9_first_match_only metaW preW mW postW (by decide) (by decide)⟩

/-- Claim C10: the probe's borrows are all released, so after `invoke_signed`
returns — with a borrow error or after dispatching — every handle's borrow
state equals its state before the call. -/
theorem claim10_borrow_state_restored (host : Host) (ix : Instruction)
    (infos : List AccountInfo) (seeds : List SignerSeeds) :
    (invoke_signed host ix infos seeds).2 = infos := by
  unfold invoke_signed
  rw [checkAccounts_eq]
  by_cases h : ix.accounts.elems.any (fun m => hasConflictMeta m infos) <;> simp [h]

end SolanaInvoke
